import Mathlib

/-!
# Verification of the SQLocal client message-correlation layer

Shallow embedding of `src/client.ts` (class `SQLocal`): the message envelope
model, the pending-request registry (`queriesInProgress`, a JS `Map` from
correlation key to a resolve/reject continuation pair), the user-callback map
(`userCallbacks`), the inbound message handler (`processMessageEvent`), the
dispatch path (`createQuery`) and the derived operations `exec`, `execBatch`,
`createCallbackFunction` and `destroy`.

Modelling conventions:
* JS `Map` objects become association lists `List (String × β)` with
  `Map.get`/`Map.has`/`Map.set`/`Map.delete` semantics (`mapGet`, `mapHas`,
  `mapSet`, `mapDelete`).
* Payload types that the client treats opaquely are type parameters: `α` for
  row values, `ι` for the database-info payload, `ε` for worker-reported error
  values, `π` for a pending continuation pair (the client never inspects the
  pair, it only invokes one of its components), `κ` for a registered callback
  handler, `β` for the binary payload of an `import` request.
* The environment-supplied correlation key (`nanoid()`) and the awaited
  outcome of a dispatched request are explicit parameters.
* Effects become data: the handler returns a `HandlerAction` describing which
  continuation it settles (or the error it throws), together with the new
  registry; fallible operations return `Except`.
-/

set_option autoImplicit false

abbrev QueryKey := String

namespace SQLocal

variable {α ι ε π κ β : Type}

/-- One result set as produced by the worker: ordered rows and ordered column
names (`RawResultData` in the source; rows are opaque to this layer). -/
structure RawResultData (α : Type) where
  rows : List α
  columns : List String
  deriving DecidableEq, Repr

/-- The empty result set `{ rows: [], columns: [] }`. -/
def emptyResult : RawResultData α := { rows := [], columns := [] }

/-- `method` of a `query` request (`Sqlite3Method` in the source). -/
inductive Sqlite3Method where
  | run
  | get
  | all
  | values
  deriving DecidableEq, Repr

/-- One SQL statement with positional parameters (`Statement` in the source). -/
structure Statement (α : Type) where
  sql : String
  params : List α
  deriving DecidableEq, Repr

/-- Sub-kind of a `function` registration request. -/
inductive FunctionType where
  | callback
  | scalar
  deriving DecidableEq, Repr

/-- Inbound messages (`OutputMessage` in the source): the correlated reply
kinds `success`, `data`, `error`, `info` carry an optional correlation key
(`queryKey`), while `callback` is an uncorrelated notification naming a
registered function and carrying an optional argument list. -/
inductive OutputMessage (α ι ε : Type) where
  | success (queryKey : Option QueryKey)
  | data (queryKey : Option QueryKey) (data : List (RawResultData α))
  | error (queryKey : Option QueryKey) (error : ε)
  | info (queryKey : Option QueryKey) (info : ι)
  | callback (name : String) (args : Option (List α))
  deriving DecidableEq, Repr

/-- Request messages accepted by `createQuery`
(`OmitQueryKey<QueryMessage | BatchMessage | DestroyMessage | FunctionMessage
| ImportMessage | GetInfoMessage>` in the source). `config` is not among
them: it is posted directly by the constructor. `import` is spelled
`importDb` because `import` is a Lean keyword. -/
inductive RequestMessage (α β : Type) where
  | query (sql : String) (params : List α) (method : Sqlite3Method)
  | batch (statements : List (Statement α))
  | destroy
  | function (functionName : String) (functionType : FunctionType)
  | importDb (database : β)
  | getinfo
  deriving DecidableEq, Repr

/-- An envelope as submitted to the worker transport: either the
constructor's `config` message (which has no `queryKey` field) or a request
message stamped with the correlation key `createQuery` attached to it. -/
inductive Envelope (α β : Type) where
  | config (key : String) (value : String)
  | request (message : RequestMessage α β) (queryKey : QueryKey)
  deriving DecidableEq, Repr

/-- The correlation key an envelope carries, if any. -/
def envelopeQueryKey : Envelope α β → Option QueryKey
  | .config _ _ => none
  | .request _ k => some k

/-- `Map.prototype.get`: first value stored under the key. -/
def mapGet {β : Type} : List (String × β) → String → Option β
  | [], _ => none
  | (k', v) :: rest, k => if k' = k then some v else mapGet rest k

/-- `Map.prototype.has`. -/
def mapHas {β : Type} (m : List (String × β)) (k : String) : Bool :=
  (mapGet m k).isSome

/-- `Map.prototype.set`: update in place if the key is present, else append. -/
def mapSet {β : Type} : List (String × β) → String → β → List (String × β)
  | [], k, v => [(k, v)]
  | (k', v') :: rest, k, v =>
    if k' = k then (k, v) :: rest else (k', v') :: mapSet rest k v

/-- `Map.prototype.delete`: remove the entry stored under the key. -/
def mapDelete {β : Type} : List (String × β) → String → List (String × β)
  | [], _ => []
  | (k', v) :: rest, k =>
    if k' = k then mapDelete rest k else (k', v) :: mapDelete rest k

/-- The effect `processMessageEvent` has beyond updating the registry: settle
a registered continuation pair (invoking its reject component with an error
value, or its resolve component with the whole message), throw an error that
matches no pending entry, invoke a registered callback handler with an
argument list (its return value is discarded), or do nothing. -/
inductive HandlerAction (α ι ε π κ : Type) where
  | resolveEntry (entry : π) (message : OutputMessage α ι ε)
  | rejectEntry (entry : π) (error : ε)
  | throwUnhandled (error : ε)
  | invokeCallback (handler : κ) (args : List α)
  | noop
  deriving DecidableEq, Repr

/-- `message.queryKey` for the correlated reply kinds; a `callback` message
has no such field. -/
def messageQueryKey : OutputMessage α ι ε → Option QueryKey
  | .success qk => qk
  | .data qk _ => qk
  | .error qk _ => qk
  | .info qk _ => qk
  | .callback _ _ => none

/-- The error value carried by an `error` message, if any. -/
def messageError : OutputMessage α ι ε → Option ε
  | .error _ e => some e
  | _ => none

/-- JS truthiness of `message.queryKey`: `undefined` and the empty string are
falsy. -/
def jsTruthy : Option QueryKey → Bool
  | none => false
  | some k => k ≠ ""

/-- The `success | data | error | info` arm of the handler's `switch`:
`if (message.queryKey && queries.has(message.queryKey))` settle and delete the
matching entry (reject for an `error` message, resolve otherwise);
`else if (message.type === 'error') throw message.error`; else fall through. -/
def handleReply (queries : List (QueryKey × π)) (message : OutputMessage α ι ε) :
    HandlerAction α ι ε π κ × List (QueryKey × π) :=
  let qk := messageQueryKey message
  let k := qk.getD ""
  if jsTruthy qk && mapHas queries k then
    match mapGet queries k with
    | some p =>
      match messageError message with
      | some e => (.rejectEntry p e, mapDelete queries k)
      | none => (.resolveEntry p message, mapDelete queries k)
    | none => (.noop, queries)
  else
    match messageError message with
    | some e => (.throwUnhandled e, queries)
    | none => (.noop, queries)

/-- `SQLocal.processMessageEvent`: branch on the message kind; `callback`
messages go to the user-callback map (never to the registry), the correlated
kinds go through `handleReply`. Returns the action taken and the registry
afterwards. -/
def processMessageEvent (queries : List (QueryKey × π))
    (callbacks : List (String × κ)) (message : OutputMessage α ι ε) :
    HandlerAction α ι ε π κ × List (QueryKey × π) :=
  match message with
  | .callback name args =>
    (match mapGet callbacks name with
     | some f => .invokeCallback f (args.getD [])
     | none => .noop,
     queries)
  | m => handleReply queries m

/-- The message of the `Error` thrown by `createQuery` after destruction. -/
def destroyedErrorMessage : String :=
  "This SQLocal client has been destroyed. You will need to initialize a new client in order to make further queries."

/-- Client state relevant to the embedded operations: the destroyed flag, the
pending-request registry and the user-callback map (`listenerAttached` models
whether `processMessageEvent` is still registered on the worker). -/
structure ClientState (π κ : Type) where
  isWorkerDestroyed : Bool
  queriesInProgress : List (QueryKey × π)
  userCallbacks : List (String × κ)
  listenerAttached : Bool
  deriving DecidableEq, Repr

/-- `SQLocal.createQuery`: throw the destroyed error when the flag is set
(before anything is posted — the `Except.error` branch carries no envelope),
otherwise stamp the message with the freshly minted correlation key
(`queryKey`, supplied by the environment's `nanoid()`), post it, and register
the new continuation pair (`entry`) under that key. -/
def createQuery (s : ClientState π κ) (queryKey : QueryKey) (entry : π)
    (message : RequestMessage α β) :
    Except String (Envelope α β × ClientState π κ) :=
  if s.isWorkerDestroyed then .error destroyedErrorMessage
  else
    .ok (.request message queryKey,
      { s with queriesInProgress := mapSet s.queriesInProgress queryKey entry })

/-- The `config` envelope the constructor posts; it carries no query key. -/
def configEnvelope (databasePath : String) : Envelope α β :=
  .config "databasePath" databasePath

/-- `SQLocal.exec`, reply-decoding part: on a `data` reply take
`message.data[0].rows` / `message.data[0].columns` — `none` models the
TypeError when the result-set list is empty (`message.data[0]` is
`undefined`); on any other reply kind return the empty result set. -/
def execResult (reply : OutputMessage α ι ε) : Option (RawResultData α) :=
  match reply with
  | .data _ ds =>
    match ds with
    | [] => none
    | d :: _ => some { rows := d.rows, columns := d.columns }
  | _ => some emptyResult

/-- JS `array[i] = x` applied at consecutive indices `0, 1, …` by
`message.data.forEach((result, resultIndex) => { data[resultIndex] = result })`:
overwrite the prefix of `base`, keep its tail, and append the updates that run
past its end (assigning at index `length` appends). -/
def overwriteByPosition {τ : Type} : List τ → List τ → List τ
  | base, [] => base
  | [], u :: us => u :: overwriteByPosition [] us
  | _ :: bs, u :: us => u :: overwriteByPosition bs us

/-- `SQLocal.execBatch`, reply-decoding part: pre-allocate
`new Array(statements.length).fill({rows: [], columns: []})`, then on a `data`
reply overwrite by position. -/
def execBatchResult (statements : List (Statement α))
    (reply : OutputMessage α ι ε) : List (RawResultData α) :=
  let base : List (RawResultData α) :=
    List.replicate statements.length emptyResult
  match reply with
  | .data _ ds => overwriteByPosition base ds
  | _ => base

/-- Failure of a public operation: either an `Error` thrown synchronously on
the dispatch path (the destroyed guard) or the rejection of the awaited
dispatch with a worker-reported error value. -/
inductive OpFailure (ε : Type) where
  | thrown (msg : String)
  | rejected (error : ε)
  deriving DecidableEq, Repr

/-- `SQLocal.createCallbackFunction`: dispatch a `function` registration
request with sub-kind `callback` and await it (`ack` is the awaited outcome);
only after it succeeds is `funcName ↦ f` recorded in `userCallbacks`. The
state component of the result is the client state after the operation. -/
def createCallbackFunction (s : ClientState π κ) (queryKey : QueryKey)
    (entry : π) (funcName : String) (f : κ) (ack : Except ε Unit) :
    Except (OpFailure ε) Unit × ClientState π κ :=
  match createQuery (α := Unit) (β := Unit) s queryKey entry
      (.function funcName .callback) with
  | .error msg => (.error (.thrown msg), s)
  | .ok (_, s') =>
    match ack with
    | .error e => (.error (.rejected e), s')
    | .ok _ =>
      (.ok (), { s' with userCallbacks := mapSet s'.userCallbacks funcName f })

/-- `SQLocal.destroy`: dispatch a `destroy` request through `createQuery`
(so a destroyed client throws the destroyed error instead of completing),
await its acknowledgement (`ack`), then remove the message listener, clear
both maps, terminate the worker and set the destroyed flag. -/
def destroy (s : ClientState π κ) (queryKey : QueryKey) (entry : π)
    (ack : Except ε Unit) : Except (OpFailure ε) Unit × ClientState π κ :=
  match createQuery (α := Unit) (β := Unit) s queryKey entry .destroy with
  | .error msg => (.error (.thrown msg), s)
  | .ok (_, s') =>
    match ack with
    | .error e => (.error (.rejected e), s')
    | .ok _ =>
      (.ok (),
        { isWorkerDestroyed := true, queriesInProgress := [],
          userCallbacks := [], listenerAttached := false })

/-! ## Association-list (JS `Map`) lemmas -/

theorem mapGet_mapDelete_self {β : Type} (m : List (String × β)) (k : String) :
    mapGet (mapDelete m k) k = none := by
  induction m with
  | nil => rfl
  | cons e rest ih =>
    obtain ⟨a, b⟩ := e
    by_cases h : a = k
    · simpa [mapDelete, h] using ih
    · simpa [mapDelete, mapGet, h] using ih

theorem mapGet_mapDelete_ne {β : Type} (m : List (String × β)) {k k' : String}
    (h : k' ≠ k) : mapGet (mapDelete m k) k' = mapGet m k' := by
  induction m with
  | nil => rfl
  | cons e rest ih =>
    obtain ⟨a, b⟩ := e
    by_cases he : a = k
    · have hkk : k ≠ k' := Ne.symm h
      simp [mapDelete, mapGet, he, Ne.symm h, ih]
    · by_cases he' : a = k'
      · simp [mapDelete, mapGet, he, he', h]
      · simp [mapDelete, mapGet, he, he', ih]

theorem mapGet_mapSet_self {β : Type} (m : List (String × β)) (k : String)
    (v : β) : mapGet (mapSet m k v) k = some v := by
  induction m with
  | nil => simp [mapSet, mapGet]
  | cons e rest ih =>
    by_cases h : e.1 = k
    · simp [mapSet, mapGet, h]
    · simp [mapSet, mapGet, h, ih]

theorem mapHas_of_mapGet_some {β : Type} {m : List (String × β)} {k : String}
    {v : β} (h : mapGet m k = some v) : mapHas m k = true := by
  simp [mapHas, h]

/-! ## `overwriteByPosition` lemmas -/

theorem overwriteByPosition_length {τ : Type} (base us : List τ) :
    (overwriteByPosition base us).length = max base.length us.length := by
  induction us generalizing base with
  | nil => simp [overwriteByPosition]
  | cons u us ih =>
    cases base with
    | nil => simp [overwriteByPosition, ih]
    | cons b bs =>
      simp only [overwriteByPosition, List.length_cons, ih]
      omega

theorem overwriteByPosition_getD {τ : Type} (base us : List τ) (i : Nat)
    (d : τ) :
    (overwriteByPosition base us).getD i d =
      if i < us.length then us.getD i d else base.getD i d := by
  induction us generalizing base i with
  | nil => simp [overwriteByPosition]
  | cons u us ih =>
    cases base with
    | nil =>
      cases i with
      | zero => simp [overwriteByPosition]
      | succ j =>
        simp only [overwriteByPosition, List.getD_cons_succ, ih]
        rcases Nat.lt_or_ge j us.length with h | h
        · simp [h, Nat.succ_lt_succ h]
        · simp [Nat.not_lt.mpr h, Nat.not_lt.mpr (Nat.succ_le_succ h),
            List.getD_eq_default]
    | cons b bs =>
      cases i with
      | zero => simp [overwriteByPosition]
      | succ j =>
        simp only [overwriteByPosition, List.getD_cons_succ, ih]
        rcases Nat.lt_or_ge j us.length with h | h
        · simp [h, Nat.succ_lt_succ h]
        · simp [Nat.not_lt.mpr h, Nat.not_lt.mpr (Nat.succ_le_succ h)]

theorem getD_replicate_self {τ : Type} (n i : Nat) (d : τ) :
    (List.replicate n d).getD i d = d := by
  induction n generalizing i with
  | zero => simp
  | succ m ih =>
    cases i with
    | zero => simp [List.replicate]
    | succ j =>
      rw [List.replicate, List.getD_cons_succ]
      exact ih j

/-! ## Claim theorems -/

/-- C1: an inbound `success`, `data`, `error` or `info` message whose
correlation key `k` has an entry `p` in the pending-request registry settles
exactly that continuation pair — rejecting with the carried error value when
the kind is `error`, resolving with the message otherwise — removes the entry
under `k`, and leaves every other key's entry untouched. (`k ≠ ""` holds for
every registered key, since keys are minted by `nanoid()`, which never
returns the empty string.) -/
theorem processMessageEvent_settles_matched_entry
    (queries : List (QueryKey × π)) (callbacks : List (String × κ))
    (message : OutputMessage α ι ε) (k : QueryKey) (p : π) (k' : QueryKey)
    (hqk : messageQueryKey message = some k) (hne : k ≠ "")
    (hget : mapGet queries k = some p) (hk' : k' ≠ k) :
    processMessageEvent queries callbacks message =
      ((match messageError message with
        | some e => HandlerAction.rejectEntry p e
        | none => HandlerAction.resolveEntry p message),
       mapDelete queries k) ∧
    mapGet (mapDelete queries k) k = none ∧
    mapGet (mapDelete queries k) k' = mapGet queries k' := by
  refine ⟨?_, mapGet_mapDelete_self queries k, mapGet_mapDelete_ne queries hk'⟩
  cases message with
  | callback n a => simp [messageQueryKey] at hqk
  | success qk =>
    simp only [messageQueryKey] at hqk
    subst hqk
    simp [processMessageEvent, handleReply, jsTruthy, messageQueryKey, hne,
      mapHas_of_mapGet_some hget, hget, messageError]
  | data qk ds =>
    simp only [messageQueryKey] at hqk
    subst hqk
    simp [processMessageEvent, handleReply, jsTruthy, messageQueryKey, hne,
      mapHas_of_mapGet_some hget, hget, messageError]
  | error qk e =>
    simp only [messageQueryKey] at hqk
    subst hqk
    simp [processMessageEvent, handleReply, jsTruthy, messageQueryKey, hne,
      mapHas_of_mapGet_some hget, hget, messageError]
  | info qk iv =>
    simp only [messageQueryKey] at hqk
    subst hqk
    simp [processMessageEvent, handleReply, jsTruthy, messageQueryKey, hne,
      mapHas_of_mapGet_some hget, hget, messageError]

/-- Witness for C1: a concrete registry with two entries and an `error`
message correlated to the first; the handler rejects entry `1`, deletes key
`"a"` and leaves key `"b"` untouched. -/
theorem processMessageEvent_settles_matched_entry_witness :
    messageQueryKey (OutputMessage.error (α := Unit) (ι := Unit) (ε := Nat)
        (some "a") 5) = some "a" ∧
    ("a" : QueryKey) ≠ "" ∧
    mapGet [("a", 1), ("b", 2)] "a" = some 1 ∧
    ("b" : QueryKey) ≠ "a" ∧
    (processMessageEvent (κ := Unit) [("a", 1), ("b", 2)] []
        (OutputMessage.error (α := Unit) (ι := Unit) (ε := Nat) (some "a") 5) =
      ((match messageError (OutputMessage.error (α := Unit) (ι := Unit)
            (ε := Nat) (some "a") 5) with
        | some e => HandlerAction.rejectEntry 1 e
        | none => HandlerAction.resolveEntry 1
            (OutputMessage.error (some "a") 5)),
       mapDelete [("a", 1), ("b", 2)] "a") ∧
      mapGet (mapDelete [("a", 1), ("b", 2)] "a") "a" = none ∧
      mapGet (mapDelete [("a", 1), ("b", 2)] "a") "b" =
        mapGet [("a", 1), ("b", 2)] "b") :=
  ⟨by decide, by decide, by decide, by decide,
    processMessageEvent_settles_matched_entry [("a", 1), ("b", 2)] []
      (OutputMessage.error (some "a") 5) "a" 1 "b"
      (by decide) (by decide) (by decide) (by decide)⟩

/-- C2: once the destroyed flag is set, the dispatch path (`createQuery`,
through which every public operation submits its request) fails immediately
with the distinct destroyed-client error; the `Except.error` branch carries
no envelope, so nothing is submitted to the worker transport. -/
theorem createQuery_rejects_after_destruction (s : ClientState π κ)
    (queryKey : QueryKey) (entry : π) (message : RequestMessage α β)
    (h : s.isWorkerDestroyed = true) :
    createQuery s queryKey entry message =
      Except.error destroyedErrorMessage := by
  simp [createQuery, h]

/-- Witness for C2: a destroyed client rejects a concrete `query` dispatch. -/
theorem createQuery_rejects_after_destruction_witness :
    (ClientState.mk (π := Nat) (κ := Unit) true [] [] false).isWorkerDestroyed
        = true ∧
    createQuery (α := Unit) (β := Unit)
        (ClientState.mk (π := Nat) (κ := Unit) true [] [] false) "k1" 0
        (.query "SELECT 1" [] .all) =
      Except.error destroyedErrorMessage :=
  ⟨by decide,
    createQuery_rejects_after_destruction
      (ClientState.mk true [] [] false) "k1" 0
      (.query "SELECT 1" [] .all) (by decide)⟩

/-- C4: an inbound message whose correlation key has no entry in the
pending-request registry is thrown as an unhandled failure when its kind is
`error`, and is silently ignored — registry unchanged — when its kind is
`success`, `data` or `info`. -/
theorem processMessageEvent_stray_messages
    (queries : List (QueryKey × π)) (callbacks : List (String × κ))
    (qk : Option QueryKey) (e : ε) (ds : List (RawResultData α)) (iv : ι)
    (h : mapHas queries (qk.getD "") = false) :
    processMessageEvent queries callbacks
        (OutputMessage.error (α := α) (ι := ι) qk e) =
      (HandlerAction.throwUnhandled e, queries) ∧
    processMessageEvent queries callbacks
        (OutputMessage.success (α := α) (ι := ι) (ε := ε) qk) =
      (HandlerAction.noop, queries) ∧
    processMessageEvent queries callbacks
        (OutputMessage.data (ι := ι) (ε := ε) qk ds) =
      (HandlerAction.noop, queries) ∧
    processMessageEvent queries callbacks
        (OutputMessage.info (α := α) (ε := ε) qk iv) =
      (HandlerAction.noop, queries) := by
  refine ⟨?_, ?_, ?_, ?_⟩ <;>
    simp [processMessageEvent, handleReply, messageQueryKey, messageError, h]

/-- Witness for C4: a stray error with key `"z"` against a registry holding
only `"a"` is thrown; stray `success`, `data` and `info` are ignored. -/
theorem processMessageEvent_stray_messages_witness :
    mapHas [("a", 1)] ((some "z" : Option QueryKey).getD "") = false ∧
    (processMessageEvent (κ := Unit) [("a", 1)]
        []
        (OutputMessage.error (α := Unit) (ι := Unit) (ε := Nat)
          (some "z") 7) =
      (HandlerAction.throwUnhandled 7, [("a", 1)]) ∧
    processMessageEvent (κ := Unit) [("a", 1)] []
        (OutputMessage.success (α := Unit) (ι := Unit) (ε := Nat)
          (some "z")) =
      (HandlerAction.noop, [("a", 1)]) ∧
    processMessageEvent (κ := Unit) [("a", 1)] []
        (OutputMessage.data (ι := Unit) (ε := Nat) (some "z")
          ([] : List (RawResultData Unit))) =
      (HandlerAction.noop, [("a", 1)]) ∧
    processMessageEvent (κ := Unit) [("a", 1)] []
        (OutputMessage.info (α := Unit) (ε := Nat) (some "z") ()) =
      (HandlerAction.noop, [("a", 1)])) :=
  ⟨by decide,
    processMessageEvent_stray_messages [("a", 1)] [] (some "z") 7 [] ()
      (by decide)⟩

/-- C5: `exec` returns the rows and columns of the first result set of a
`data` reply, and the empty result set — a normal return — for a `success`
or `info` reply. -/
theorem exec_decodes_reply (qk : Option QueryKey) (d : RawResultData α)
    (rest : List (RawResultData α)) (iv : ι) :
    execResult (ι := ι) (ε := ε) (.data qk (d :: rest)) =
      some { rows := d.rows, columns := d.columns } ∧
    execResult (α := α) (ι := ι) (ε := ε) (.success qk) = some emptyResult ∧
    execResult (α := α) (ε := ε) (.info qk iv) = some emptyResult :=
  ⟨rfl, rfl, rfl⟩

/-- C10: `exec` reads the first result set of a `data` reply with no
emptiness guard — on a `data` reply whose result-set list is empty it fails
(`none`, the `message.data[0].rows` TypeError) instead of returning the
empty-result-set fallback, and it is total on `data` replies carrying at
least one result set. -/
theorem exec_fails_on_empty_data_reply (qk : Option QueryKey)
    (d : RawResultData α) (rest : List (RawResultData α)) :
    execResult (ι := ι) (ε := ε)
        (.data qk ([] : List (RawResultData α))) = none ∧
    execResult (ι := ι) (ε := ε) (.data qk ([] : List (RawResultData α))) ≠
      some emptyResult ∧
    (execResult (ι := ι) (ε := ε) (.data qk (d :: rest))).isSome = true :=
  ⟨rfl, by simp [execResult], rfl⟩

/-- C8: a `callback` message never touches the pending-request registry
(the returned registry is the input registry, and the callback branch of
`processMessageEvent` does not consult it); a registered handler is invoked
with the supplied arguments (`message.args ?? []`, return value discarded),
and an unregistered name is a no-op rather than a failure. -/
theorem processMessageEvent_callback_routing
    (queries : List (QueryKey × π)) (callbacks : List (String × κ))
    (name : String) (args : Option (List α)) :
    processMessageEvent (ι := ι) (ε := ε) queries callbacks
        (.callback name args) =
      ((match mapGet callbacks name with
        | some f => HandlerAction.invokeCallback f (args.getD [])
        | none => HandlerAction.noop),
       queries) := by
  cases h : mapGet callbacks name <;>
    simp [processMessageEvent, h]

/-- C9: a second `destroy()` on a client whose first `destroy()` has resolved
(and hence set the destroyed flag) rejects with the thrown destroyed-client
error instead of completing as a no-op: `destroy` is not idempotent. -/
theorem destroy_second_call_rejects (s : ClientState π κ)
    (k₁ k₂ : QueryKey) (p₁ p₂ : π) (ack : Except ε Unit)
    (h : s.isWorkerDestroyed = false) :
    (destroy s k₁ p₁ (Except.ok (ε := ε) ())).2.isWorkerDestroyed = true ∧
    destroy (destroy s k₁ p₁ (Except.ok (ε := ε) ())).2 k₂ p₂ ack =
      (Except.error (OpFailure.thrown destroyedErrorMessage),
       (destroy s k₁ p₁ (Except.ok (ε := ε) ())).2) := by
  constructor
  · simp [destroy, createQuery, h]
  · simp [destroy, createQuery, h]

/-- Witness for C9: destroying a concrete fresh client twice — the second
call rejects with the destroyed-client error. -/
theorem destroy_second_call_rejects_witness :
    (ClientState.mk (π := Nat) (κ := Unit) false [] [] true).isWorkerDestroyed
        = false ∧
    ((destroy (ClientState.mk (π := Nat) (κ := Unit) false [] [] true) "k1" 0
        (Except.ok (ε := Unit) ())).2.isWorkerDestroyed = true ∧
    destroy (destroy (ClientState.mk (π := Nat) (κ := Unit) false [] [] true)
        "k1" 0 (Except.ok (ε := Unit) ())).2 "k2" 1
        (Except.ok (ε := Unit) ()) =
      (Except.error (OpFailure.thrown destroyedErrorMessage),
       (destroy (ClientState.mk (π := Nat) (κ := Unit) false [] [] true) "k1"
          0 (Except.ok (ε := Unit) ())).2)) :=
  ⟨by decide,
    destroy_second_call_rejects (ClientState.mk false [] [] true) "k1" "k2"
      0 1 (Except.ok ()) (by decide)⟩

/-- C6: `createCallbackFunction` records `funcName ↦ f` in the local handler
map only after the awaited registration dispatch succeeds; when the dispatch
is rejected the operation propagates the rejection and the handler map is
exactly the one the client had before the call. -/
theorem createCallbackFunction_local_effect (s : ClientState π κ)
    (queryKey : QueryKey) (entry : π) (funcName : String) (f : κ) (e : ε)
    (h : s.isWorkerDestroyed = false) :
    ((createCallbackFunction s queryKey entry funcName f
        (Except.error e)).1 = Except.error (OpFailure.rejected e) ∧
     (createCallbackFunction s queryKey entry funcName f
        (Except.error e)).2.userCallbacks = s.userCallbacks) ∧
    ((createCallbackFunction s queryKey entry funcName f
        (Except.ok (ε := ε) ())).1 = Except.ok () ∧
     mapGet (createCallbackFunction s queryKey entry funcName f
        (Except.ok (ε := ε) ())).2.userCallbacks funcName = some f) := by
  refine ⟨⟨?_, ?_⟩, ?_, ?_⟩ <;>
    simp [createCallbackFunction, createQuery, h, mapGet_mapSet_self]

/-- Witness for C6: registering `"fn"` on a concrete fresh client — a
rejected dispatch leaves the handler map empty, a successful one records the
handler (handlers are identified by `Nat` tags here). -/
theorem createCallbackFunction_local_effect_witness :
    (ClientState.mk (π := Unit) (κ := Nat) false [] [] true).isWorkerDestroyed
        = false ∧
    (((createCallbackFunction (ClientState.mk (π := Unit) (κ := Nat) false []
          [] true) "k1" () "fn" 9 (Except.error (ε := Nat) 3)).1 =
        Except.error (OpFailure.rejected 3) ∧
      (createCallbackFunction (ClientState.mk (π := Unit) (κ := Nat) false []
          [] true) "k1" () "fn" 9 (Except.error (ε := Nat) 3)).2.userCallbacks
        = (ClientState.mk (π := Unit) (κ := Nat) false [] [] true).userCallbacks) ∧
     ((createCallbackFunction (ClientState.mk (π := Unit) (κ := Nat) false []
          [] true) "k1" () "fn" 9 (Except.ok (ε := Nat) ())).1 =
        Except.ok () ∧
      mapGet (createCallbackFunction (ClientState.mk (π := Unit) (κ := Nat)
          false [] [] true) "k1" () "fn" 9
          (Except.ok (ε := Nat) ())).2.userCallbacks "fn" = some 9)) :=
  ⟨by decide,
    createCallbackFunction_local_effect (ClientState.mk false [] [] true)
      "k1" () "fn" 9 3 (by decide)⟩

/-- Counterexample to C3 as stated: for the one-statement batch and a `data`
reply carrying two result sets, `execBatch`'s result array has length 2, not
the claimed input length 1 — JS `data[resultIndex] = result` extends the
pre-allocated array past its end. -/
theorem execBatchResult_length_can_exceed_input :
    (execBatchResult (ι := Unit) (ε := Unit)
        [{ sql := "SELECT 1", params := ([] : List Unit) }]
        (.data (some "k") [emptyResult, emptyResult])).length ≠
      ([{ sql := "SELECT 1", params := ([] : List Unit) }] :
        List (Statement Unit)).length := by
  decide

/-- C3 amended: whenever the reply is not of kind `data`, or is a `data`
reply carrying at most as many result sets as there are statements — in
particular when it carries fewer — `execBatch` returns a well-formed result
array of exactly the input length, whose position `i` holds the `i`-th
result set of the reply when the reply supplies one and the empty result set
otherwise. (A `data` reply with more result sets than statements instead
extends the array to the reply's length.) -/
theorem execBatchResult_positionally_aligned (statements : List (Statement α))
    (qk qk' : Option QueryKey) (ds : List (RawResultData α)) (i : Nat)
    (iv : ι)
    (h : ds.length ≤ statements.length) :
    (execBatchResult (ι := ι) (ε := ε) statements (.data qk ds)).length =
      statements.length ∧
    (execBatchResult (ι := ι) (ε := ε) statements
        (.data qk ds)).getD i emptyResult = ds.getD i emptyResult ∧
    (execBatchResult statements
        (OutputMessage.success (α := α) (ι := ι) (ε := ε) qk')).length =
      statements.length ∧
    (execBatchResult statements
        (OutputMessage.success (α := α) (ι := ι) (ε := ε) qk')).getD i
        emptyResult = emptyResult ∧
    (execBatchResult statements
        (OutputMessage.info (α := α) (ε := ε) qk' iv)).length =
      statements.length ∧
    (execBatchResult statements
        (OutputMessage.info (α := α) (ε := ε) qk' iv)).getD i emptyResult =
      emptyResult := by
  refine ⟨?_, ?_, ?_, ?_, ?_, ?_⟩
  · simp [execBatchResult, overwriteByPosition_length]
    omega
  · rw [execBatchResult, overwriteByPosition_getD]
    rcases Nat.lt_or_ge i ds.length with hi | hi
    · simp [hi]
    · rw [List.getD_eq_default _ _ (by omega : ds.length ≤ i)]
      simp [Nat.not_lt.mpr hi, getD_replicate_self]
  · simp [execBatchResult]
  · simp [execBatchResult, getD_replicate_self]
  · simp [execBatchResult]
  · simp [execBatchResult, getD_replicate_self]

/-- Witness for C3 (amended): two statements, a `data` reply with one result
set — the result array keeps length 2, position 1 holds the empty result
set; a `success` reply yields the all-empty array of length 2. -/
theorem execBatchResult_positionally_aligned_witness :
    ([{ rows := [true], columns := ["c"] }] :
        List (RawResultData Bool)).length ≤
      ([{ sql := "s0", params := [] }, { sql := "s1", params := [] }] :
        List (Statement Bool)).length ∧
    ((execBatchResult (ι := Unit) (ε := Unit)
        [{ sql := "s0", params := [] }, { sql := "s1", params := [] }]
        (.data (some "k")
          [({ rows := [true], columns := ["c"] } : RawResultData Bool)])).length =
      ([{ sql := "s0", params := [] }, { sql := "s1", params := [] }] :
        List (Statement Bool)).length ∧
    (execBatchResult (ι := Unit) (ε := Unit)
        [{ sql := "s0", params := [] }, { sql := "s1", params := [] }]
        (.data (some "k")
          [({ rows := [true], columns := ["c"] } : RawResultData Bool)])).getD
        1 emptyResult =
      ([({ rows := [true], columns := ["c"] } : RawResultData Bool)]).getD 1
        emptyResult ∧
    (execBatchResult
        [{ sql := "s0", params := [] }, { sql := "s1", params := [] }]
        (OutputMessage.success (α := Bool) (ι := Unit) (ε := Unit)
          (some "k2"))).length =
      ([{ sql := "s0", params := [] }, { sql := "s1", params := [] }] :
        List (Statement Bool)).length ∧
    (execBatchResult
        [{ sql := "s0", params := [] }, { sql := "s1", params := [] }]
        (OutputMessage.success (α := Bool) (ι := Unit) (ε := Unit)
          (some "k2"))).getD 1 emptyResult = emptyResult ∧
    (execBatchResult
        [{ sql := "s0", params := [] }, { sql := "s1", params := [] }]
        (OutputMessage.info (α := Bool) (ε := Unit) (some "k2") ())).length =
      ([{ sql := "s0", params := [] }, { sql := "s1", params := [] }] :
        List (Statement Bool)).length ∧
    (execBatchResult
        [{ sql := "s0", params := [] }, { sql := "s1", params := [] }]
        (OutputMessage.info (α := Bool) (ε := Unit) (some "k2") ())).getD 1
        emptyResult = emptyResult) :=
  ⟨by decide,
    execBatchResult_positionally_aligned
      [{ sql := "s0", params := [] }, { sql := "s1", params := [] }]
      (some "k") (some "k2")
      [({ rows := [true], columns := ["c"] } : RawResultData Bool)] 1 ()
      (by decide)⟩

/-- Counterexample to C7 as stated: the `destroy` request is dispatched
through `createQuery`, which stamps it with the minted correlation key like
every other request it handles — the posted destroy envelope carries
`some "k1"`, not no key. -/
theorem createQuery_destroy_envelope_carries_key :
    createQuery (α := Unit) (β := Unit)
        (ClientState.mk (π := Nat) (κ := Unit) false [] [] true) "k1" 0
        RequestMessage.destroy =
      Except.ok (Envelope.request RequestMessage.destroy "k1",
        ClientState.mk (π := Nat) (κ := Unit) false [("k1", 0)] [] true) ∧
    envelopeQueryKey
        (Envelope.request (α := Unit) (β := Unit) RequestMessage.destroy
          "k1") ≠ none := by
  constructor
  · rfl
  · decide

/-- C7 amended: a dispatched request envelope carries the freshly minted
correlation key if and only if its variant is not `config`: every envelope
`createQuery` posts — `query`, `batch`, `destroy`, `function`, `import` and
`getinfo` alike — is stamped with the minted key, while the constructor's
`config` envelope is posted without one. -/
theorem dispatched_envelope_key (s : ClientState π κ) (queryKey : QueryKey)
    (entry : π) (message : RequestMessage α β) (databasePath : String)
    (h : s.isWorkerDestroyed = false) :
    (createQuery s queryKey entry message).map
        (fun r => envelopeQueryKey r.1) = Except.ok (some queryKey) ∧
    envelopeQueryKey (configEnvelope (α := α) (β := β) databasePath) =
      none := by
  constructor
  · simp [createQuery, h, Except.map, envelopeQueryKey]
  · rfl

/-- Witness for C7 (amended): a concrete `getinfo` dispatch is stamped with
the minted key `"k1"`; the config envelope has none. -/
theorem dispatched_envelope_key_witness :
    (ClientState.mk (π := Nat) (κ := Unit) false [] [] true).isWorkerDestroyed
        = false ∧
    ((createQuery (α := Unit) (β := Unit)
        (ClientState.mk (π := Nat) (κ := Unit) false [] [] true) "k1" 0
        RequestMessage.getinfo).map (fun r => envelopeQueryKey r.1) =
      Except.ok (some "k1") ∧
    envelopeQueryKey (configEnvelope (α := Unit) (β := Unit) "db.sqlite3") =
      none) :=
  ⟨by decide,
    dispatched_envelope_key (ClientState.mk false [] [] true) "k1" 0
      RequestMessage.getinfo "db.sqlite3" (by decide)⟩

end SQLocal
